import Mathlib

/-!
Shallow embedding of the compiler-frontend driver in
`lib/Frontend/Frontend.cpp` (`swift::CompilerInstance`): target-configuration
derivation (`setTargetConfigurations`), session setup (`setup`) with its
buffer-registration and loader-chain construction, and the parse/type-check
orchestration (`performParse`).

External collaborators (the parser, the type checker, the serialized-module
recognizer/loader) are modelled as oracle parameters; the driver's observable
behaviour is captured as a trace of events plus the resulting module state.
-/

namespace SwiftFrontend

/-- `swift::SourceFileKind`.  `SIL` is the low-level-IR input kind. -/
inductive SourceFileKind
  | Main
  | Library
  | SIL
  | REPL
  deriving DecidableEq, Repr, Inhabited

/-- An input buffer: an identifier (path or synthetic name) plus immutable
contents (`llvm::MemoryBuffer`). -/
structure Buffer where
  identifier : String
  contents : String
  deriving DecidableEq, Repr, Inhabited

/-- Whether a `SelectedInput` indexes the memory-buffer list (`isBuffer`) or
the filename list (`isFilename`). -/
inductive SelectedInputKind
  | buffer
  | filename
  deriving DecidableEq, Repr, Inhabited

/-- `swift::SelectedInput`: the primary-input selector, an index into one of
the two input lists. -/
structure SelectedInput where
  index : Nat
  kind : SelectedInputKind
  deriving DecidableEq, Repr, Inhabited

/-- The operating-system component of an `llvm::Triple`, abstracted to the
cases `setTargetConfigurations` distinguishes (`isMacOSX`, `isiOS`, other). -/
inductive TripleOS
  | macosx
  | ios
  | otherOS
  deriving DecidableEq, Repr, Inhabited

/-- The architecture component of an `llvm::Triple`, abstracted to the cases
`setTargetConfigurations` distinguishes.  `arm64` is the architecture whose
`getArchTypeName` is `"arm64"` but which has no dedicated `case` label in the
switch (see the FIXME in the source); `otherArch` is any remaining
architecture. -/
inductive TripleArch
  | arm
  | x86
  | x86_64
  | arm64
  | otherArch
  deriving DecidableEq, Repr, Inhabited

/-- `llvm::Triple::getArchTypeName` restricted to the abstracted cases. -/
def archTypeName : TripleArch → String
  | .arm => "arm"
  | .x86 => "x86"
  | .x86_64 => "x86_64"
  | .arm64 => "arm64"
  | .otherArch => "unknown"

/-- The target triple, abstracted to its os and arch components. -/
structure Triple where
  os : TripleOS
  arch : TripleArch
  deriving DecidableEq, Repr, Inhabited

/-- `LangOptions::TargetConfigOptions`: the "os" and "arch" build-configuration
entries; `none` means the entry was never set. -/
structure TargetConfigOptions where
  os : Option String
  arch : Option String
  deriving DecidableEq, Repr, Inhabited

/-- The arch `switch` of `CompilerInstance::setTargetConfigurations`
(Frontend.cpp lines 56-72).  In the `default` case the `break` statement is
not governed by the `if` (there are no braces), so it executes unconditionally
and the `llvm_unreachable` after it is dead code: an unmatched architecture
falls through with the "arch" entry left unset. -/
def setArchConfig (arch : TripleArch) (opts : TargetConfigOptions) : TargetConfigOptions :=
  match arch with
  | .arm => { opts with arch := some "arm" }
  | .x86 => { opts with arch := some "i386" }
  | .x86_64 => { opts with arch := some "x86_64" }
  | a =>
    if archTypeName a == "arm64" then { opts with arch := some "arm64" } else opts

/-- `CompilerInstance::setTargetConfigurations` (Frontend.cpp lines 41-73).
The result is `none` when the os is neither MacOSX nor iOS, modelling the
`assert(false && "Unsupported target OS")` firing (debug-build abort). -/
def setTargetConfigurations (triple : Triple) : Option TargetConfigOptions :=
  let opts : TargetConfigOptions := ⟨none, none⟩
  match triple.os with
  | .macosx => some (setArchConfig triple.arch { opts with os := some "OSX" })
  | .ios => some (setArchConfig triple.arch { opts with os := some "iOS" })
  | .otherOS => none

/-- The buffer registry (`swift::SourceManager`).  Buffer ids are stable
positions in the append-only buffer list. -/
structure SourceManager where
  buffers : List Buffer
  deriving DecidableEq, Repr, Inhabited

/-- `SourceManager::addMemBufferCopy`: always appends a fresh buffer and
returns its id; memory buffers are never deduplicated. -/
def SourceManager.addMemBufferCopy (sm : SourceManager) (b : Buffer) : SourceManager × Nat :=
  (⟨sm.buffers ++ [b]⟩, sm.buffers.length)

/-- `SourceManager::addNewSourceBuffer`: same registry action as
`addMemBufferCopy`, used for buffers read from disk. -/
def SourceManager.addNewSourceBuffer (sm : SourceManager) (b : Buffer) : SourceManager × Nat :=
  (⟨sm.buffers ++ [b]⟩, sm.buffers.length)

/-- Scan for the first buffer carrying `ident`, counting from position `i`. -/
def findBufferIdx : List Buffer → String → Nat → Option Nat
  | [], _, _ => none
  | b :: bs, ident, i =>
    if b.identifier == ident then some i else findBufferIdx bs ident (i + 1)

/-- `SourceManager::getIDForBufferIdentifier`: the id of the first registered
buffer carrying this identifier, if any. -/
def SourceManager.getIDForBufferIdentifier (sm : SourceManager) (ident : String) : Option Nat :=
  findBufferIdx sm.buffers ident 0

/-- `SourceManager::getMemoryBuffer` (total: out-of-range ids, which the
driver never produces, yield a dummy buffer). -/
def SourceManager.getMemoryBuffer (sm : SourceManager) (id : Nat) : Buffer :=
  sm.buffers.getD id ⟨"", ""⟩

/-- `swift::CompilerInvocation`, restricted to the options `setup` and
`performParse` consult. -/
structure CompilerInvocation where
  moduleName : String
  inputKind : SourceFileKind
  inputBuffers : List Buffer
  inputFilenames : List String
  primaryInput : Option SelectedInput
  codeCompletionPoint : Option (Buffer × Nat)
  targetTriple : Triple
  sdkPath : String
  parseOnly : Bool
  delayedFunctionBodyParsing : Bool
  enableSourceImport : Bool
  actionIsImmediate : Bool
  parseStdlib : Bool
  deriving DecidableEq, Repr, Inhabited

/-- Host-build capabilities the source queries at setup time:
whether `swift::getClangImporterCtor()` returns a constructor at all, and
whether invoking that constructor yields a non-null importer. -/
structure Host where
  clangImporterCtorAvailable : Bool
  clangImporterCreateSucceeds : Bool
  deriving DecidableEq, Repr, Inhabited

/-- One entry of the module-loader chain, in the closed set the source wires
up: `SourceLoader` (with its `!immediate` flag), `SerializedModuleLoader`,
and the Clang importer. -/
inductive ModuleLoader
  | sourceLoader (enableResolution : Bool)
  | serializedModuleLoader
  | clangImporter
  deriving DecidableEq, Repr, Inhabited

/-- The ways `setup` can fail (it returns `true` in the source).
`unsupportedTriple` models the `setTargetConfigurations` assertion firing, and
`invalidModuleName` the `assert(Lexer::isIdentifier(...))` firing; the other
three are diagnosed returns. -/
inductive SetupError
  | unsupportedTriple
  | clangImporterCreateFail
  | clangImporterNotLinkedIn
  | invalidModuleName
  | openInputFile (path : String)
  deriving DecidableEq, Repr, Inhabited

/-- Modelled from the spec: `Lexer::isIdentifier` (declared in
`swift/Parse/Lexer.h`, outside this file) validates that the module name is a
syntactically legal identifier. -/
def isIdentifier (s : String) : Bool :=
  match s.toList with
  | [] => false
  | c :: cs => (c.isAlpha || c == '_') && cs.all (fun d => d.isAlphanum || d == '_')

/-- The file system visible to `llvm::MemoryBuffer::getFileOrSTDIN`:
an association of paths to contents. -/
abbrev FileSystem := List (String × String)

/-- Read a file; `none` models an IO error. -/
def FileSystem.readFile (fs : FileSystem) (path : String) : Option String :=
  (fs.find? (fun e => e.1 == path)).map (fun e => e.2)

/-- The characters after the last `/` separator: `acc` holds the component
read so far, reset at each separator. -/
def filenameChars : List Char → List Char → List Char
  | [], acc => acc
  | c :: cs, acc =>
    if c = '/' then filenameChars cs [] else filenameChars cs (acc ++ [c])

/-- `llvm::sys::path::filename`: the component after the last separator. -/
def pathFilename (p : String) : String :=
  ⟨filenameChars p.data []⟩

/-- The session state a successful `setup` leaves in the `CompilerInstance`:
the fields of the instance that `performParse` later consults.  `none` for
`mainBufferID`/`primaryBufferID` models the `NO_SUCH_BUFFER` sentinel. -/
structure CompilerState where
  invocation : CompilerInvocation
  sourceMgr : SourceManager
  bufferIDs : List Nat
  mainBufferID : Option Nat
  primaryBufferID : Option Nat
  codeCompletionBufferID : Option Nat
  loaders : List ModuleLoader
  targetConfig : TargetConfigOptions
  deriving DecidableEq, Repr, Inhabited

/-- Does the primary-input selector pick the memory buffer at original input
index `i` (`PrimaryInput->isBuffer() && PrimaryInput->Index == i`)? -/
def primaryMatchesBuffer (pi : Option SelectedInput) (i : Nat) : Bool :=
  match pi with
  | some s => s.kind == .buffer && s.index == i
  | none => false

/-- Does the primary-input selector pick the filename at original input index
`i` (`PrimaryInput->isFilename() && PrimaryInput->Index == i`)? -/
def primaryMatchesFilename (pi : Option SelectedInput) (i : Nat) : Bool :=
  match pi with
  | some s => s.kind == .filename && s.index == i
  | none => false

/-- The memory-input registration loop of `setup` (Frontend.cpp lines
143-156): each input buffer is copied into the registry; in SIL mode each one
in turn becomes the main buffer; a buffer-kind primary selector matching the
original input index marks the primary buffer. -/
def addMemoryBuffers (silMode : Bool) (pi : Option SelectedInput) :
    Nat → List Buffer → CompilerState → CompilerState
  | _, [], st => st
  | i, b :: bs, st =>
    let r := st.sourceMgr.addMemBufferCopy b
    let st1 := { st with sourceMgr := r.1, bufferIDs := st.bufferIDs ++ [r.2] }
    let st2 := if silMode then { st1 with mainBufferID := some r.2 } else st1
    let st3 := if primaryMatchesBuffer pi i then { st2 with primaryBufferID := some r.2 } else st2
    addMemoryBuffers silMode pi (i + 1) bs st3

/-- The file-input registration loop of `setup` (Frontend.cpp lines 158-198):
a filename already present in the registry is deduplicated onto the existing
buffer id (the file is not opened); otherwise the file is read (an IO error
aborts setup) and registered.  In SIL mode, or in Main mode when the filename
is `main.swift`, the resolved buffer becomes the main buffer; a filename-kind
primary selector matching the original input index marks the primary. -/
def addFileBuffers (silMode mainMode : Bool) (pi : Option SelectedInput) (fs : FileSystem) :
    Nat → List String → CompilerState → Except SetupError CompilerState
  | _, [], st => .ok st
  | i, file :: files, st =>
    match st.sourceMgr.getIDForBufferIdentifier file with
    | some existingID =>
      let st1 := if silMode || (mainMode && pathFilename file == "main.swift")
        then { st with mainBufferID := some existingID } else st
      let st2 := if primaryMatchesFilename pi i
        then { st1 with primaryBufferID := some existingID } else st1
      addFileBuffers silMode mainMode pi fs (i + 1) files st2
    | none =>
      match fs.readFile file with
      | none => .error (.openInputFile file)
      | some contents =>
        let r := st.sourceMgr.addNewSourceBuffer ⟨file, contents⟩
        let st1 := { st with sourceMgr := r.1, bufferIDs := st.bufferIDs ++ [r.2] }
        let st2 := if silMode || (mainMode && pathFilename file == "main.swift")
          then { st1 with mainBufferID := some r.2 } else st1
        let st3 := if primaryMatchesFilename pi i
          then { st2 with primaryBufferID := some r.2 } else st2
        addFileBuffers silMode mainMode pi fs (i + 1) files st3

/-- The fresh compiler state constructed around the new `ASTContext`
(Frontend.cpp lines 93-95): empty registry, no buffers admitted, no main or
primary designation, empty loader chain. -/
def initialState (invok : CompilerInvocation) (targetConfig : TargetConfigOptions) :
    CompilerState :=
  { invocation := invok
    sourceMgr := ⟨[]⟩
    bufferIDs := []
    mainBufferID := none
    primaryBufferID := none
    codeCompletionBufferID := none
    loaders := []
    targetConfig := targetConfig }

/-- Loader-chain construction (Frontend.cpp lines 97-118): the source loader
when raw source imports are enabled (lazy unless the action is immediate),
the serialized-module loader always, and the Clang importer when the host
build provides it.  The error cases of the Clang-importer block are handled
by `setup` itself before this state is used. -/
def addLoaders (invok : CompilerInvocation) (host : Host) (st : CompilerState) :
    CompilerState :=
  let st1 := if invok.enableSourceImport
    then { st with loaders := st.loaders ++ [.sourceLoader (!invok.actionIsImmediate)] }
    else st
  let st2 := { st1 with loaders := st1.loaders ++ [.serializedModuleLoader] }
  if host.clangImporterCtorAvailable
    then { st2 with loaders := st2.loaders ++ [.clangImporter] }
    else st2

/-- Code-completion buffer registration (Frontend.cpp lines 127-135): the
buffer is copied into the registry and pushed onto `BufferIDs`. -/
def registerCodeCompletion (invok : CompilerInvocation) (st : CompilerState) :
    CompilerState :=
  match invok.codeCompletionPoint with
  | some cc =>
    let r := st.sourceMgr.addMemBufferCopy cc.1
    { st with sourceMgr := r.1, bufferIDs := st.bufferIDs ++ [r.2],
              codeCompletionBufferID := some r.2 }
  | none => st

/-- `CompilerInstance::setup` (Frontend.cpp lines 75-204).  The `-Xllvm`
forwarding (lines 78-87) only mutates LLVM's global option parser and leaves
no session state, so it has no counterpart here; likewise the hashbang and
code-completion-location bookkeeping are side effects on collaborators.
Returns the session state on success. -/
def CompilerInstance.setup (invok : CompilerInvocation) (host : Host) (fs : FileSystem) :
    Except SetupError CompilerState :=
  match setTargetConfigurations invok.targetTriple with
  | none => .error .unsupportedTriple
  | some targetConfig =>
    if host.clangImporterCtorAvailable && !host.clangImporterCreateSucceeds then
      .error .clangImporterCreateFail
    else if !host.clangImporterCtorAvailable && invok.sdkPath != "" then
      .error .clangImporterNotLinkedIn
    else if !isIdentifier invok.moduleName then
      .error .invalidModuleName
    else
      let st0 := registerCodeCompletion invok
        (addLoaders invok host (initialState invok targetConfig))
      let st1 := addMemoryBuffers (invok.inputKind == .SIL) invok.primaryInput 0
        invok.inputBuffers st0
      match addFileBuffers (invok.inputKind == .SIL) (invok.inputKind == .Main)
          invok.primaryInput fs 0 invok.inputFilenames st1 with
      | .error e => .error e
      | .ok st2 =>
        if (invok.inputKind == .Main) && st2.mainBufferID.isNone
            && st2.bufferIDs.length == 1 then
          .ok { st2 with mainBufferID := st2.bufferIDs.head? }
        else
          .ok st2

/-- A source file under construction (`swift::SourceFile`): its kind, the
buffer it was created from (`none` for the bufferless REPL file), and the
ordered declarations the parser has appended (abstracted to numbers). -/
structure SourceFile where
  kind : SourceFileKind
  bufferID : Option Nat
  decls : List Nat
  deriving DecidableEq, Repr, Inhabited

/-- A file of the main module.  `loadAST` merges a serialized image as a
non-source file unit, which the `dyn_cast<SourceFile>` in the final
type-checking loop skips. -/
inductive FileUnit
  | sourceFile (sf : SourceFile)
  | serializedASTFile
  deriving DecidableEq, Repr, Inhabited

/-- The main module (`swift::Module`): its name and ordered file list. -/
structure ModuleState where
  name : String
  files : List FileUnit
  deriving DecidableEq, Repr, Inhabited

/-- Which `DelayedParsingCallbacks` variant `performParse` installs. -/
inductive DelayedCallbacksKind
  | codeComplete
  | alwaysDelayed
  deriving DecidableEq, Repr, Inhabited

/-- The external collaborators `performParse` drives, as oracles keyed by
buffer contents: the serialized-image recognizer
(`SerializedModuleLoader::isSerializedAST`), the serialized loader's outcome
(`SerializedModuleLoader::loadAST`), the one-shot library parse
(`parseIntoSourceFile` on a library file), and the successive chunks the
re-entrant main-file pump yields (the last chunk reports `Done`; an empty
list stands for a buffer exhausted on the first pump). -/
structure ParserOracle where
  isSerializedAST : String → Bool
  loadASTSucceeds : String → Bool
  libraryDecls : String → List Nat
  mainChunks : List (List Nat)

/-- Observable actions of `performParse`, in program order. -/
inductive Event
  | loadSerialized (bufferID : Nat) (success : Bool)
  | parseLibraryFile (bufferID : Nat)
  | bindNames (bufferID : Nat)
  | pumpMainFile (bufferID : Nat)
  | typeCheckChunk (bufferID : Nat) (startElem : Nat)
  | typeCheckWholeFile (bufferID : Option Nat)
  | delayedParsingPass
  deriving DecidableEq, Repr, Inhabited

/-- Is this event a chunk-scoped `performTypeChecking` call (the one inside
the main-file pump loop, with a start element)? -/
def Event.isTypeCheckChunk : Event → Bool
  | .typeCheckChunk _ _ => true
  | _ => false

/-- Is this event a whole-file `performTypeChecking` call (the one in the
final loop over the module's files)? -/
def Event.isTypeCheckWhole : Event → Bool
  | .typeCheckWholeFile _ => true
  | _ => false

/-- Is this event a pump of the main-file parser? -/
def Event.isPumpMainFile : Event → Bool
  | .pumpMainFile _ => true
  | _ => false

/-- Did this event process (attempt) buffer `id` in the library loop, either
as a serialized image or as a parsed library file? -/
def Event.attemptsBuffer (id : Nat) : Event → Bool
  | .loadSerialized b _ => b == id
  | .parseLibraryFile b => b == id
  | _ => false

/-- What `performParse` returns: the module built so far, the event trace,
the session-wide serialized-load failure flag, whether a SIL module container
was created, and the `PrimarySourceFile` designation (by buffer id). -/
structure ParseResult where
  mainModule : ModuleState
  events : List Event
  hadLoadError : Bool
  silModuleCreated : Bool
  primarySourceFileBuffer : Option Nat
  deriving DecidableEq, Repr, Inhabited

/-- Mutable state threaded through the library-file loop of `performParse`. -/
structure LibLoopState where
  files : List FileUnit
  events : List Event
  hadLoadError : Bool
  primarySourceFileBuffer : Option Nat
  deriving DecidableEq, Repr, Inhabited

/-- The library-file loop of `performParse` (Frontend.cpp lines 255-289):
every registered buffer other than the main one is, in registration order,
either merged as a serialized image (a failure sets the session-wide flag and
the loop continues) or attached as a Library source file, parsed fully, and
name-bound. -/
def parseLibraryBuffers (sm : SourceManager) (po : ParserOracle)
    (mainBufferID primaryBufferID : Option Nat) :
    List Nat → LibLoopState → LibLoopState
  | [], s => s
  | bufferID :: rest, s =>
    if some bufferID == mainBufferID then
      parseLibraryBuffers sm po mainBufferID primaryBufferID rest s
    else
      let contents := (sm.getMemoryBuffer bufferID).contents
      if po.isSerializedAST contents then
        let ok := po.loadASTSucceeds contents
        let s1 : LibLoopState :=
          { s with files := if ok then s.files ++ [.serializedASTFile] else s.files
                   events := s.events ++ [.loadSerialized bufferID ok]
                   hadLoadError := s.hadLoadError || !ok }
        parseLibraryBuffers sm po mainBufferID primaryBufferID rest s1
      else
        let sf : SourceFile := ⟨.Library, some bufferID, po.libraryDecls contents⟩
        let s1 : LibLoopState :=
          { s with files := s.files ++ [.sourceFile sf]
                   primarySourceFileBuffer :=
                     if some bufferID == primaryBufferID then some bufferID
                     else s.primarySourceFileBuffer
                   events := s.events ++ [.parseLibraryFile bufferID, .bindNames bufferID] }
        parseLibraryBuffers sm po mainBufferID primaryBufferID rest s1

/-- The main-file pump loop of `performParse` (Frontend.cpp lines 295-314):
each pump appends one chunk of declarations; when `checkChunks` holds (the
guard `!ParseOnly && (PrimaryBufferID == NO_SUCH_BUFFER || MainBufferID ==
PrimaryBufferID)`) the declarations appended since `curTUElem` are
type-checked; `curTUElem` then advances to the current declaration count
whether or not the check ran. -/
def pumpMainLoop (checkChunks : Bool) (mainBufferID : Nat) :
    List (List Nat) → List Nat → Nat → List Event → List Nat × List Event
  | [], decls, _, events => (decls, events)
  | chunk :: rest, decls, curTUElem, events =>
    let decls1 := decls ++ chunk
    let events1 := events ++ [.pumpMainFile mainBufferID]
    let events2 := if checkChunks
      then events1 ++ [.typeCheckChunk mainBufferID curTUElem] else events1
    pumpMainLoop checkChunks mainBufferID rest decls1 decls1.length events2

/-- Store the final pumped declarations into the main file, which is the
first file of the module when a main buffer exists. -/
def setMainFileDecls : List FileUnit → List Nat → List FileUnit
  | .sourceFile sf :: rest, decls => .sourceFile { sf with decls := decls } :: rest
  | files, _ => files

/-- The final type-checking loop of `performParse` (Frontend.cpp lines
316-323): every file of the module that is a `SourceFile` is type-checked as
a whole, provided no primary buffer is designated or the file's buffer is the
primary buffer. -/
def typeCheckFiles (primaryBufferID : Option Nat) : List FileUnit → List Event
  | [] => []
  | .serializedASTFile :: rest => typeCheckFiles primaryBufferID rest
  | .sourceFile sf :: rest =>
    (if primaryBufferID.isNone || (sf.bufferID.isSome && sf.bufferID == primaryBufferID)
      then [Event.typeCheckWholeFile sf.bufferID] else [])
    ++ typeCheckFiles primaryBufferID rest

/-- The delayed-parsing-callbacks selection of `performParse` (Frontend.cpp
lines 226-232): a code-completion invocation installs the code-complete
callbacks, otherwise the delay-all-bodies flag installs the always-delayed
ones. -/
def delayedCallbacks (invok : CompilerInvocation) : Option DelayedCallbacksKind :=
  if invok.codeCompletionPoint.isSome then some .codeComplete
  else if invok.delayedFunctionBodyParsing then some .alwaysDelayed
  else none

/-- The module's file list right after the main file is attached (Frontend.cpp
lines 240-253): the main file, unparsed, is first when a main buffer exists. -/
def initialLibFiles (st : CompilerState) : List FileUnit :=
  match st.mainBufferID with
  | some mb => [.sourceFile ⟨st.invocation.inputKind, some mb, []⟩]
  | none => []

/-- The `PrimarySourceFile` designation made while attaching the main file
(Frontend.cpp lines 251-252). -/
def initialPrimaryFile (st : CompilerState) : Option Nat :=
  if st.mainBufferID.isSome && st.mainBufferID == st.primaryBufferID
    then st.mainBufferID else none

/-- The library-loop portion of `performParse`, started from the
freshly-attached main file. -/
def libPhase (st : CompilerState) (po : ParserOracle) : LibLoopState :=
  parseLibraryBuffers st.sourceMgr po st.mainBufferID st.primaryBufferID
    st.bufferIDs ⟨initialLibFiles st, [], false, initialPrimaryFile st⟩

/-- The sequence of chunks the do-while pump loop actually consumes: the loop
body runs at least once even on a buffer exhausted from the start. -/
def normalizedChunks (po : ParserOracle) : List (List Nat) :=
  if po.mainChunks.isEmpty then [[]] else po.mainChunks

/-- The main-file pump portion of `performParse` (Frontend.cpp lines
294-314), producing the updated file list and event trace. -/
def pumpPhase (st : CompilerState) (po : ParserOracle) (s : LibLoopState) :
    List FileUnit × List Event :=
  match st.mainBufferID with
  | some mb =>
    let checkChunks := !st.invocation.parseOnly &&
      (st.primaryBufferID.isNone || some mb == st.primaryBufferID)
    let r := pumpMainLoop checkChunks mb (normalizedChunks po) [] 0 s.events
    (setMainFileDecls s.files r.1, r.2)
  | none => (s.files, s.events)

/-- The parse/type-check phases of `performParse` after its early assertions
and the REPL early return (Frontend.cpp lines 236-335): attach the main file
first (unparsed), run the library loop, stop if the load-failure flag is set,
pump the main file with chunk-scoped type-checking, type-check the module's
files as wholes unless parse-only, and run the delayed pass if callbacks were
installed. -/
def runParsePhases (st : CompilerState) (po : ParserOracle) : ParseResult :=
  let kind := st.invocation.inputKind
  let s := libPhase st po
  if s.hadLoadError then
    { mainModule := ⟨st.invocation.moduleName, s.files⟩
      events := s.events
      hadLoadError := true
      silModuleCreated := kind == .SIL
      primarySourceFileBuffer := s.primarySourceFileBuffer }
  else
    let pumped := pumpPhase st po s
    let events3 := if !st.invocation.parseOnly
      then pumped.2 ++ typeCheckFiles st.primaryBufferID pumped.1
      else pumped.2
    let events4 := if (delayedCallbacks st.invocation).isSome
      then events3 ++ [.delayedParsingPass] else events3
    { mainModule := ⟨st.invocation.moduleName, pumped.1⟩
      events := events4
      hadLoadError := false
      silModuleCreated := kind == .SIL
      primarySourceFileBuffer := s.primarySourceFileBuffer }

/-- `CompilerInstance::performParse` (Frontend.cpp lines 206-335), driven by
the parser/loader oracles.  The result is `none` when one of the assertions
fires: `BufferIDs.size() == 1` or `MainBufferID != NO_SUCH_BUFFER` in SIL
mode (lines 213-214), or `Kind == Main || Kind == SIL` when a main buffer
exists (line 241).  A REPL-kind invocation attaches one empty REPL file and
returns immediately (lines 218-224); otherwise the parse phases run.
`recordKnownProtocols` touches only the standard-library module and has no
counterpart here; `performDelayedParsing` is an external pass recorded as a
single trace event. -/
def CompilerInstance.performParse (st : CompilerState) (po : ParserOracle) :
    Option ParseResult :=
  let kind := st.invocation.inputKind
  if kind == .SIL && !(st.bufferIDs.length == 1) then none
  else if kind == .SIL && st.mainBufferID.isNone then none
  else if kind == .REPL then
    some { mainModule := ⟨st.invocation.moduleName, [.sourceFile ⟨.REPL, none, []⟩]⟩
           events := []
           hadLoadError := false
           silModuleCreated := kind == .SIL
           primarySourceFileBuffer := none }
  else if st.mainBufferID.isSome && !(kind == .Main || kind == .SIL) then none
  else
    some (runParsePhases st po)

/-! ### Helper definitions for stating the properties -/

/-- `[s, s+1, ..., s+n-1]`: the ids handed out by `n` consecutive
registrations starting from registry size `s`. -/
def idRange : Nat → Nat → List Nat
  | _, 0 => []
  | s, n + 1 => s :: idRange (s + 1) n

/-- The net effect of the memory-input loop on `PrimaryBufferID`: a
buffer-kind selector whose index falls among the `len` inputs registered with
original indices `i, i+1, ...` (ids starting at `base`) designates that
input's buffer; otherwise the old value survives. -/
def memPrimaryUpdate (pi : Option SelectedInput) (i len base : Nat)
    (old : Option Nat) : Option Nat :=
  match pi with
  | some s =>
    if s.kind = .buffer ∧ i ≤ s.index ∧ s.index < i + len
      then some (base + (s.index - i)) else old
  | none => old

/-- Events the library-file loop can emit. -/
def Event.isLibraryLoopEvent : Event → Bool
  | .loadSerialized _ _ => true
  | .parseLibraryFile _ => true
  | .bindNames _ => true
  | _ => false

/-- The chunk-type-check guard exactly as claim C2 words it: the check
happens **unless** parse-only mode is active and (no primary buffer is
designated or the main buffer is the primary).  Compare with the guard the
code actually evaluates, `!ParseOnly && (PrimaryBufferID == NO_SUCH_BUFFER ||
MainBufferID == PrimaryBufferID)`. -/
def specChunkCheckGuard (parseOnly : Bool) (primary mainB : Option Nat) : Bool :=
  !(parseOnly && (primary.isNone || mainB == primary))

/-! ### Concrete sessions used by the counterexamples and witnesses -/

/-- A host build with the Clang importer linked in and constructible. -/
def hostOK : Host := ⟨true, true⟩

/-- Main-kind invocation over the two files `main.swift` and `util.src`. -/
def invMainTwoFiles : CompilerInvocation :=
  { moduleName := "App"
    inputKind := .Main
    inputBuffers := []
    inputFilenames := ["main.swift", "util.src"]
    primaryInput := none
    codeCompletionPoint := none
    targetTriple := ⟨.macosx, .x86_64⟩
    sdkPath := ""
    parseOnly := false
    delayedFunctionBodyParsing := false
    enableSourceImport := false
    actionIsImmediate := false
    parseStdlib := false }

/-- Disk contents for `invMainTwoFiles`. -/
def fsMainTwoFiles : FileSystem := [("main.swift", "m"), ("util.src", "u")]

/-- Oracle: nothing is a serialized image; the library file parses to one
declaration; the main file takes two pumps of one declaration each. -/
def poTwoChunks : ParserOracle :=
  { isSerializedAST := fun _ => false
    loadASTSucceeds := fun _ => true
    libraryDecls := fun _ => [10]
    mainChunks := [[1], [2]] }

/-- Oracle: the `util.src` contents are a recognized serialized image whose
merge fails. -/
def poSerializedFail : ParserOracle :=
  { poTwoChunks with
      isSerializedAST := fun c => c == "u"
      loadASTSucceeds := fun _ => false }

/-- The session `setup` builds for `invMainTwoFiles`. -/
def stMainTwoFiles : CompilerState :=
  (CompilerInstance.setup invMainTwoFiles hostOK fsMainTwoFiles).toOption.getD default

/-- The parse result of `stMainTwoFiles` with `poTwoChunks`. -/
def resMainTwoFiles : ParseResult :=
  (CompilerInstance.performParse stMainTwoFiles poTwoChunks).getD default

/-- The parse result of `stMainTwoFiles` with the failing serialized merge. -/
def resMainSerFail : ParseResult :=
  (CompilerInstance.performParse stMainTwoFiles poSerializedFail).getD default

/-- Like `invMainTwoFiles` but parse-only, with the library file `util.src`
(input index 1) designated primary. -/
def invParseOnlyPrimary : CompilerInvocation :=
  { invMainTwoFiles with parseOnly := true, primaryInput := some ⟨1, .filename⟩ }

/-- The session `setup` builds for `invParseOnlyPrimary`. -/
def stParseOnlyPrimary : CompilerState :=
  (CompilerInstance.setup invParseOnlyPrimary hostOK fsMainTwoFiles).toOption.getD default

/-- The parse result of `stParseOnlyPrimary` with `poTwoChunks`. -/
def resParseOnlyPrimary : ParseResult :=
  (CompilerInstance.performParse stParseOnlyPrimary poTwoChunks).getD default

/-- Main-kind invocation with a code-completion target and a single file
input (whose name does not match `main.swift`). -/
def invCCPlusFile : CompilerInvocation :=
  { invMainTwoFiles with
      inputFilenames := ["a.src"]
      codeCompletionPoint := some (⟨"cc.swift", "x"⟩, 0) }

/-- The session `setup` builds for `invCCPlusFile`. -/
def stCCPlusFile : CompilerState :=
  (CompilerInstance.setup invCCPlusFile hostOK [("a.src", "aa")]).toOption.getD default

/-- Main-kind invocation with a single file input `solo.src`. -/
def invSoloFile : CompilerInvocation :=
  { invMainTwoFiles with inputFilenames := ["solo.src"] }

/-- The session `setup` builds for `invSoloFile`. -/
def stSoloFile : CompilerState :=
  (CompilerInstance.setup invSoloFile hostOK [("solo.src", "s")]).toOption.getD default

/-- Library-kind invocation registering the memory input `(p, c)` and then
the file inputs `[p, q, q]`, with the third input (a duplicate of `q`)
designated primary. -/
def invFileDedup (p q c : String) : CompilerInvocation :=
  { invMainTwoFiles with
      inputKind := .Library
      inputBuffers := [⟨p, c⟩]
      inputFilenames := [p, q, q]
      primaryInput := some ⟨2, .filename⟩ }

/-- The session `setup` builds for `invFileDedup "a" "b" "ca"` over a file
system holding only `b`. -/
def stFileDedup : CompilerState :=
  (CompilerInstance.setup (invFileDedup "a" "b" "ca") hostOK
    [("b", "d")]).toOption.getD default

/-- Main-kind invocation with two memory inputs and no file inputs. -/
def invTwoMemMain : CompilerInvocation :=
  { invMainTwoFiles with
      inputFilenames := []
      inputBuffers := [⟨"a", "ca"⟩, ⟨"b", "cb"⟩] }

/-- The session `setup` builds for `invTwoMemMain`. -/
def stTwoMemMain : CompilerState :=
  (CompilerInstance.setup invTwoMemMain hostOK []).toOption.getD default

/-- SIL-kind invocation with two memory inputs, the second one primary. -/
def invTwoMemSIL : CompilerInvocation :=
  { invTwoMemMain with inputKind := .SIL, primaryInput := some ⟨1, .buffer⟩ }

/-- The session `setup` builds for `invTwoMemSIL`. -/
def stTwoMemSIL : CompilerState :=
  (CompilerInstance.setup invTwoMemSIL hostOK []).toOption.getD default

/-- Library-kind invocation whose target triple has a recognized os (MacOSX)
but an architecture outside the recognized table. -/
def invUnknownArch : CompilerInvocation :=
  { invMainTwoFiles with
      inputKind := .Library
      inputFilenames := []
      targetTriple := ⟨.macosx, .otherArch⟩ }

/-- Library-kind invocation with an SDK path configured. -/
def invSDKPath : CompilerInvocation :=
  { invMainTwoFiles with inputKind := .Library, inputFilenames := [], sdkPath := "/sdk" }

/-- SIL-kind invocation with no inputs at all. -/
def invSILNoInputs : CompilerInvocation :=
  { invTwoMemMain with inputKind := .SIL, inputBuffers := [] }

/-- The session `setup` builds for `invSILNoInputs`. -/
def stSILNoInputs : CompilerState :=
  (CompilerInstance.setup invSILNoInputs hostOK []).toOption.getD default

/-- SIL-kind invocation with exactly one memory input. -/
def invSILOneInput : CompilerInvocation :=
  { invSILNoInputs with inputBuffers := [⟨"f.sil", "s"⟩] }

/-- The session `setup` builds for `invSILOneInput`. -/
def stSILOneInput : CompilerState :=
  (CompilerInstance.setup invSILOneInput hostOK []).toOption.getD default

/-! ### Lemmas about the memory-input registration loop -/

theorem addMemoryBuffers_frame (silMode : Bool) (pi : Option SelectedInput)
    (bufs : List Buffer) : ∀ (i : Nat) (st : CompilerState),
    (addMemoryBuffers silMode pi i bufs st).invocation = st.invocation
    ∧ (addMemoryBuffers silMode pi i bufs st).loaders = st.loaders
    ∧ (addMemoryBuffers silMode pi i bufs st).codeCompletionBufferID
        = st.codeCompletionBufferID
    ∧ (addMemoryBuffers silMode pi i bufs st).targetConfig = st.targetConfig := by
  induction bufs with
  | nil => intro i st; simp [addMemoryBuffers]
  | cons b bs ih =>
    intro i st
    simp only [addMemoryBuffers]
    split <;> split <;>
      simpa using ih (i + 1) _

theorem addMemoryBuffers_buffers (silMode : Bool) (pi : Option SelectedInput)
    (bufs : List Buffer) : ∀ (i : Nat) (st : CompilerState),
    (addMemoryBuffers silMode pi i bufs st).sourceMgr.buffers
      = st.sourceMgr.buffers ++ bufs := by
  induction bufs with
  | nil => intro i st; simp [addMemoryBuffers]
  | cons b bs ih =>
    intro i st
    simp only [addMemoryBuffers]
    split <;> split <;>
      simp [ih (i + 1) _, SourceManager.addMemBufferCopy]

theorem addMemoryBuffers_bufferIDs (silMode : Bool) (pi : Option SelectedInput)
    (bufs : List Buffer) : ∀ (i : Nat) (st : CompilerState),
    (addMemoryBuffers silMode pi i bufs st).bufferIDs
      = st.bufferIDs ++ idRange st.sourceMgr.buffers.length bufs.length := by
  induction bufs with
  | nil => intro i st; simp [addMemoryBuffers, idRange]
  | cons b bs ih =>
    intro i st
    simp only [addMemoryBuffers, idRange]
    split <;> split <;>
      simp [ih (i + 1) _, SourceManager.addMemBufferCopy]

theorem addMemoryBuffers_main_not_sil (pi : Option SelectedInput)
    (bufs : List Buffer) : ∀ (i : Nat) (st : CompilerState),
    (addMemoryBuffers false pi i bufs st).mainBufferID = st.mainBufferID := by
  induction bufs with
  | nil => intro i st; simp [addMemoryBuffers]
  | cons b bs ih =>
    intro i st
    simp only [addMemoryBuffers]
    split <;>
      simpa using ih (i + 1) _

theorem addMemoryBuffers_main_sil (pi : Option SelectedInput)
    (bufs : List Buffer) : ∀ (i : Nat) (st : CompilerState),
    (addMemoryBuffers true pi i bufs st).mainBufferID
      = (if bufs.isEmpty then st.mainBufferID
         else some (st.sourceMgr.buffers.length + bufs.length - 1)) := by
  induction bufs with
  | nil => intro i st; simp [addMemoryBuffers]
  | cons b bs ih =>
    intro i st
    simp only [addMemoryBuffers]
    split <;>
    · rw [ih (i + 1) _]
      cases bs with
      | nil => simp [SourceManager.addMemBufferCopy]
      | cons c cs =>
        simp [SourceManager.addMemBufferCopy]
        omega

/-- One step of the primary-buffer bookkeeping: registering input `i` (id
`base`) and then processing the rest is the same as processing all `len + 1`
inputs at once. -/
theorem memPrimaryUpdate_step (s : SelectedInput) (i len base : Nat)
    (old : Option Nat) :
    memPrimaryUpdate (some s) (i + 1) len (base + 1)
      (if s.kind = SelectedInputKind.buffer ∧ s.index = i then some base else old)
      = memPrimaryUpdate (some s) i (len + 1) base old := by
  simp only [memPrimaryUpdate]
  by_cases hk : s.kind = SelectedInputKind.buffer
  · by_cases hi : s.index = i
    · have hA : s.kind = SelectedInputKind.buffer ∧ s.index = i := ⟨hk, hi⟩
      have hB : ¬(s.kind = SelectedInputKind.buffer
          ∧ i + 1 ≤ s.index ∧ s.index < i + 1 + len) := by
        rintro ⟨-, h, -⟩; omega
      have hC : s.kind = SelectedInputKind.buffer
          ∧ i ≤ s.index ∧ s.index < i + (len + 1) := ⟨hk, by omega, by omega⟩
      rw [if_pos hA, if_neg hB, if_pos hC]
      congr 1
      omega
    · have hA : ¬(s.kind = SelectedInputKind.buffer ∧ s.index = i) := by
        rintro ⟨-, h⟩; exact hi h
      rw [if_neg hA]
      by_cases hr : i + 1 ≤ s.index ∧ s.index < i + 1 + len
      · have hB : s.kind = SelectedInputKind.buffer
            ∧ i + 1 ≤ s.index ∧ s.index < i + 1 + len := ⟨hk, hr.1, hr.2⟩
        have hC : s.kind = SelectedInputKind.buffer
            ∧ i ≤ s.index ∧ s.index < i + (len + 1) := ⟨hk, by omega, by omega⟩
        rw [if_pos hB, if_pos hC]
        congr 1
        omega
      · have hB : ¬(s.kind = SelectedInputKind.buffer
            ∧ i + 1 ≤ s.index ∧ s.index < i + 1 + len) := by
          rintro ⟨-, h1, h2⟩; exact hr ⟨h1, h2⟩
        have hC : ¬(s.kind = SelectedInputKind.buffer
            ∧ i ≤ s.index ∧ s.index < i + (len + 1)) := by
          rintro ⟨-, h1, h2⟩
          exact hr ⟨by omega, by omega⟩
        rw [if_neg hB, if_neg hC]
  · have hA : ¬(s.kind = SelectedInputKind.buffer ∧ s.index = i) := by
      rintro ⟨h, -⟩; exact hk h
    have hB : ¬(s.kind = SelectedInputKind.buffer
        ∧ i + 1 ≤ s.index ∧ s.index < i + 1 + len) := by
      rintro ⟨h, -⟩; exact hk h
    have hC : ¬(s.kind = SelectedInputKind.buffer
        ∧ i ≤ s.index ∧ s.index < i + (len + 1)) := by
      rintro ⟨h, -⟩; exact hk h
    rw [if_neg hA, if_neg hB, if_neg hC]

theorem addMemoryBuffers_primary (silMode : Bool) (pi : Option SelectedInput)
    (bufs : List Buffer) : ∀ (i : Nat) (st : CompilerState),
    (addMemoryBuffers silMode pi i bufs st).primaryBufferID
      = memPrimaryUpdate pi i bufs.length st.sourceMgr.buffers.length
          st.primaryBufferID := by
  induction bufs with
  | nil =>
    intro i st
    cases pi with
    | none => simp [addMemoryBuffers, memPrimaryUpdate]
    | some s =>
      simp only [addMemoryBuffers, memPrimaryUpdate, List.length_nil]
      rw [if_neg]
      rintro ⟨-, h1, h2⟩
      omega
  | cons b bs ih =>
    intro i st
    simp only [addMemoryBuffers]
    split <;> rename_i hpm
    · rw [ih (i + 1) _]
      cases pi with
      | none => simp [primaryMatchesBuffer] at hpm
      | some s =>
        simp only [primaryMatchesBuffer, Bool.and_eq_true, beq_iff_eq] at hpm
        have h := memPrimaryUpdate_step s i bs.length st.sourceMgr.buffers.length
          st.primaryBufferID
        rw [if_pos hpm] at h
        simpa [SourceManager.addMemBufferCopy, apply_ite, ite_self] using h
    · rw [ih (i + 1) _]
      cases pi with
      | none =>
        simp only [memPrimaryUpdate]
        split <;> rfl
      | some s =>
        simp only [primaryMatchesBuffer, Bool.and_eq_true, beq_iff_eq] at hpm
        have h := memPrimaryUpdate_step s i bs.length st.sourceMgr.buffers.length
          st.primaryBufferID
        rw [if_neg hpm] at h
        simpa [SourceManager.addMemBufferCopy, apply_ite, ite_self] using h

/-! ### Lemmas about the file-input registration loop -/

theorem addFileBuffers_frame (silMode mainMode : Bool) (pi : Option SelectedInput)
    (fs : FileSystem) (files : List String) : ∀ (i : Nat) (st st' : CompilerState),
    addFileBuffers silMode mainMode pi fs i files st = .ok st' →
    st'.invocation = st.invocation ∧ st'.loaders = st.loaders
    ∧ st'.codeCompletionBufferID = st.codeCompletionBufferID
    ∧ st'.targetConfig = st.targetConfig := by
  induction files with
  | nil =>
    intro i st st' h
    simp only [addFileBuffers, Except.ok.injEq] at h
    subst h
    exact ⟨rfl, rfl, rfl, rfl⟩
  | cons f rest ih =>
    intro i st st' h
    simp only [addFileBuffers] at h
    split at h
    · rcases ih _ _ _ h with ⟨h1, h2, h3, h4⟩
      refine ⟨?_, ?_, ?_, ?_⟩ <;>
        simp only [h1, h2, h3, h4] <;> split <;> split <;> rfl
    · split at h
      · simp at h
      · rcases ih _ _ _ h with ⟨h1, h2, h3, h4⟩
        refine ⟨?_, ?_, ?_, ?_⟩ <;>
          simp only [h1, h2, h3, h4] <;> split <;> split <;> rfl

theorem addFileBuffers_main_preserved (silMode mainMode : Bool)
    (pi : Option SelectedInput) (fs : FileSystem) (files : List String) :
    ∀ (i : Nat) (st st' : CompilerState),
    addFileBuffers silMode mainMode pi fs i files st = .ok st' →
    (∀ f ∈ files, (silMode || (mainMode && (pathFilename f == "main.swift"))) = false) →
    st'.mainBufferID = st.mainBufferID := by
  induction files with
  | nil =>
    intro i st st' h _
    simp only [addFileBuffers, Except.ok.injEq] at h
    subst h
    rfl
  | cons f rest ih =>
    intro i st st' h hno
    have hf := hno f (by simp)
    have hrest : ∀ g ∈ rest,
        (silMode || (mainMode && (pathFilename g == "main.swift"))) = false :=
      fun g hg => hno g (by simp [hg])
    simp only [addFileBuffers] at h
    split at h
    · rw [ih _ _ _ h hrest]
      split <;> simp [hf]
    · split at h
      · simp at h
      · rw [ih _ _ _ h hrest]
        split <;> simp [hf]

/-! ### Lemmas about the setup stages -/

theorem addMemoryBuffers_main_of_false (silMode : Bool) (pi : Option SelectedInput)
    (bufs : List Buffer) (h : silMode = false) (i : Nat) (st : CompilerState) :
    (addMemoryBuffers silMode pi i bufs st).mainBufferID = st.mainBufferID := by
  subst h
  exact addMemoryBuffers_main_not_sil pi bufs i st

theorem addLoaders_fields (invok : CompilerInvocation) (host : Host)
    (st : CompilerState) :
    (addLoaders invok host st).invocation = st.invocation
    ∧ (addLoaders invok host st).sourceMgr = st.sourceMgr
    ∧ (addLoaders invok host st).bufferIDs = st.bufferIDs
    ∧ (addLoaders invok host st).mainBufferID = st.mainBufferID
    ∧ (addLoaders invok host st).primaryBufferID = st.primaryBufferID
    ∧ (addLoaders invok host st).codeCompletionBufferID = st.codeCompletionBufferID
    ∧ (addLoaders invok host st).targetConfig = st.targetConfig := by
  simp only [addLoaders]
  split <;> split <;> exact ⟨rfl, rfl, rfl, rfl, rfl, rfl, rfl⟩

theorem addLoaders_serialized_mem (invok : CompilerInvocation) (host : Host)
    (st : CompilerState) :
    ModuleLoader.serializedModuleLoader ∈ (addLoaders invok host st).loaders := by
  simp only [addLoaders]
  split <;> split <;> simp

theorem registerCodeCompletion_none (invok : CompilerInvocation)
    (st : CompilerState) (hcc : invok.codeCompletionPoint = none) :
    registerCodeCompletion invok st = st := by
  simp [registerCodeCompletion, hcc]

theorem registerCodeCompletion_fields (invok : CompilerInvocation)
    (st : CompilerState) :
    (registerCodeCompletion invok st).invocation = st.invocation
    ∧ (registerCodeCompletion invok st).mainBufferID = st.mainBufferID
    ∧ (registerCodeCompletion invok st).primaryBufferID = st.primaryBufferID
    ∧ (registerCodeCompletion invok st).loaders = st.loaders
    ∧ (registerCodeCompletion invok st).targetConfig = st.targetConfig := by
  simp only [registerCodeCompletion]
  split <;> exact ⟨rfl, rfl, rfl, rfl, rfl⟩

/-- Eliminating a successful `setup`: name the target configuration and the
post-registration state, and express the returned state as the
implicit-main-fallback adjustment of the latter. -/
theorem setup_ok_elim (invok : CompilerInvocation) (host : Host) (fs : FileSystem)
    (st : CompilerState)
    (hok : CompilerInstance.setup invok host fs = .ok st) :
    ∃ targetConfig st2,
      setTargetConfigurations invok.targetTriple = some targetConfig
      ∧ addFileBuffers (invok.inputKind == .SIL) (invok.inputKind == .Main)
          invok.primaryInput fs 0 invok.inputFilenames
          (addMemoryBuffers (invok.inputKind == .SIL) invok.primaryInput 0
            invok.inputBuffers
            (registerCodeCompletion invok
              (addLoaders invok host (initialState invok targetConfig)))) = .ok st2
      ∧ st = (if (invok.inputKind == .Main) && st2.mainBufferID.isNone
                  && st2.bufferIDs.length == 1
              then { st2 with mainBufferID := st2.bufferIDs.head? } else st2) := by
  simp only [CompilerInstance.setup] at hok
  split at hok
  · simp at hok
  · rename_i targetConfig htc
    split at hok
    · simp at hok
    · split at hok
      · simp at hok
      · split at hok
        · simp at hok
        · split at hok
          · simp at hok
          · rename_i st2 haf
            refine ⟨targetConfig, st2, htc, haf, ?_⟩
            split at hok
            · rename_i hcond
              rw [if_pos hcond]
              exact (Except.ok.inj hok).symm
            · rename_i hcond
              rw [if_neg hcond]
              exact (Except.ok.inj hok).symm

/-- The returned state of a successful `setup` carries the invocation it was
given. -/
theorem setup_invocation (invok : CompilerInvocation) (host : Host)
    (fs : FileSystem) (st : CompilerState)
    (hok : CompilerInstance.setup invok host fs = .ok st) :
    st.invocation = invok := by
  obtain ⟨tc, st2, htc, haf, hst⟩ := setup_ok_elim invok host fs st hok
  have h2 : st2.invocation = invok := by
    rw [(addFileBuffers_frame _ _ _ _ _ _ _ _ haf).1,
      (addMemoryBuffers_frame _ _ _ _ _).1,
      (registerCodeCompletion_fields _ _).1,
      (addLoaders_fields _ _ _).1]
    rfl
  subst hst
  split <;> simpa using h2

/-! ### Lemmas about the library-file loop -/

theorem parseLibraryBuffers_hadLoadError_mono (sm : SourceManager) (po : ParserOracle)
    (mainB primB : Option Nat) (ids : List Nat) :
    ∀ (s : LibLoopState), s.hadLoadError = true →
    (parseLibraryBuffers sm po mainB primB ids s).hadLoadError = true := by
  induction ids with
  | nil => intro s h; simpa [parseLibraryBuffers] using h
  | cons id rest ih =>
    intro s h
    simp only [parseLibraryBuffers]
    split
    · exact ih s h
    · split
      · exact ih _ (by simp [h])
      · exact ih _ (by simp [h])

theorem parseLibraryBuffers_events_mono (sm : SourceManager) (po : ParserOracle)
    (mainB primB : Option Nat) (ids : List Nat) :
    ∀ (s : LibLoopState) (e : Event), e ∈ s.events →
    e ∈ (parseLibraryBuffers sm po mainB primB ids s).events := by
  induction ids with
  | nil => intro s e h; simpa [parseLibraryBuffers] using h
  | cons id rest ih =>
    intro s e h
    simp only [parseLibraryBuffers]
    split
    · exact ih s e h
    · split
      · exact ih _ e (by simp [h])
      · exact ih _ e (by simp [h])

theorem parseLibraryBuffers_events_shape (sm : SourceManager) (po : ParserOracle)
    (mainB primB : Option Nat) (ids : List Nat) :
    ∀ (s : LibLoopState) (e : Event),
    e ∈ (parseLibraryBuffers sm po mainB primB ids s).events →
    e ∈ s.events ∨ e.isLibraryLoopEvent = true := by
  induction ids with
  | nil => intro s e h; simp [parseLibraryBuffers] at h; exact Or.inl h
  | cons id rest ih =>
    intro s e h
    simp only [parseLibraryBuffers] at h
    split at h
    · exact ih s e h
    · split at h
      · rcases ih _ e h with h' | h'
        · simp only [List.mem_append, List.mem_singleton] at h'
          rcases h' with h' | h'
          · exact Or.inl h'
          · subst h'
            exact Or.inr rfl
        · exact Or.inr h'
      · rcases ih _ e h with h' | h'
        · simp only [List.mem_append, List.mem_cons, List.mem_singleton,
            List.not_mem_nil, or_false] at h'
          rcases h' with h' | h' | h'
          · exact Or.inl h'
          · subst h'
            exact Or.inr rfl
          · subst h'
            exact Or.inr rfl
        · exact Or.inr h'

theorem parseLibraryBuffers_fail (sm : SourceManager) (po : ParserOracle)
    (mainB primB : Option Nat) (ids : List Nat) :
    ∀ (s : LibLoopState) (b : Nat), b ∈ ids → some b ≠ mainB →
    po.isSerializedAST (sm.getMemoryBuffer b).contents = true →
    po.loadASTSucceeds (sm.getMemoryBuffer b).contents = false →
    (parseLibraryBuffers sm po mainB primB ids s).hadLoadError = true := by
  induction ids with
  | nil => intro s b h; simp at h
  | cons id rest ih =>
    intro s b hb hbm hser hfail
    rcases List.mem_cons.mp hb with rfl | hbrest
    · simp only [parseLibraryBuffers]
      split
      · rename_i hmain
        rw [beq_iff_eq] at hmain
        exact absurd hmain hbm
      all_goals
        exact parseLibraryBuffers_hadLoadError_mono sm po mainB primB rest _
          (by simp [hfail])
    · simp only [parseLibraryBuffers]
      split
      · exact ih s b hbrest hbm hser hfail
      · split
        · exact ih _ b hbrest hbm hser hfail
        · exact ih _ b hbrest hbm hser hfail

theorem parseLibraryBuffers_attempts (sm : SourceManager) (po : ParserOracle)
    (mainB primB : Option Nat) (ids : List Nat) :
    ∀ (s : LibLoopState) (b : Nat), b ∈ ids → some b ≠ mainB →
    ∃ e ∈ (parseLibraryBuffers sm po mainB primB ids s).events,
      e.attemptsBuffer b = true := by
  induction ids with
  | nil => intro s b h; simp at h
  | cons id rest ih =>
    intro s b hb hbm
    rcases List.mem_cons.mp hb with rfl | hbrest
    · simp only [parseLibraryBuffers]
      split
      · rename_i hmain
        rw [beq_iff_eq] at hmain
        exact absurd hmain hbm
      · split
        · refine ⟨.loadSerialized b (po.loadASTSucceeds (sm.getMemoryBuffer b).contents),
            parseLibraryBuffers_events_mono sm po mainB primB rest _ _ (by simp), ?_⟩
          simp [Event.attemptsBuffer]
        · refine ⟨.parseLibraryFile b,
            parseLibraryBuffers_events_mono sm po mainB primB rest _ _ (by simp), ?_⟩
          simp [Event.attemptsBuffer]
    · simp only [parseLibraryBuffers]
      split
      · exact ih s b hbrest hbm
      · split
        · exact ih _ b hbrest hbm
        · exact ih _ b hbrest hbm

/-! ### Lemmas about the main-file pump loop and the final type-check loop -/

theorem pumpMainLoop_chunk_count (checkChunks : Bool) (mb : Nat)
    (chunks : List (List Nat)) : ∀ (decls : List Nat) (cur : Nat) (events : List Event),
    (pumpMainLoop checkChunks mb chunks decls cur events).2.countP
        (fun e => e.isTypeCheckChunk)
      = events.countP (fun e => e.isTypeCheckChunk)
        + (if checkChunks then chunks.length else 0) := by
  induction chunks with
  | nil => intro decls cur events; simp [pumpMainLoop]
  | cons c rest ih =>
    intro decls cur events
    simp only [pumpMainLoop]
    rw [ih]
    cases checkChunks <;>
      simp [List.countP_append, Event.isTypeCheckChunk, List.countP_cons]
    omega

theorem pumpMainLoop_pump_count (checkChunks : Bool) (mb : Nat)
    (chunks : List (List Nat)) : ∀ (decls : List Nat) (cur : Nat) (events : List Event),
    (pumpMainLoop checkChunks mb chunks decls cur events).2.countP
        (fun e => e.isPumpMainFile)
      = events.countP (fun e => e.isPumpMainFile) + chunks.length := by
  induction chunks with
  | nil => intro decls cur events; simp [pumpMainLoop]
  | cons c rest ih =>
    intro decls cur events
    simp only [pumpMainLoop]
    rw [ih]
    cases checkChunks <;>
      simp [List.countP_append, Event.isPumpMainFile, Event.isTypeCheckChunk,
        List.countP_cons] <;>
      omega

theorem pumpMainLoop_events_shape (checkChunks : Bool) (mb : Nat)
    (chunks : List (List Nat)) : ∀ (decls : List Nat) (cur : Nat)
    (events : List Event) (e : Event),
    e ∈ (pumpMainLoop checkChunks mb chunks decls cur events).2 →
    e ∈ events ∨ e = .pumpMainFile mb
      ∨ (checkChunks = true ∧ e.isTypeCheckChunk = true) := by
  induction chunks with
  | nil => intro decls cur events e h; exact Or.inl (by simpa [pumpMainLoop] using h)
  | cons c rest ih =>
    intro decls cur events e h
    simp only [pumpMainLoop] at h
    rcases ih _ _ _ e h with h' | h' | h'
    · cases hc : checkChunks <;> rw [hc] at h' <;> simp at h'
      · rcases h' with h' | h'
        · exact Or.inl h'
        · exact Or.inr (Or.inl h')
      · rcases h' with h' | h' | h'
        · exact Or.inl h'
        · exact Or.inr (Or.inl h')
        · subst h'
          exact Or.inr (Or.inr ⟨rfl, rfl⟩)
    · exact Or.inr (Or.inl h')
    · exact Or.inr (Or.inr h')

theorem typeCheckFiles_all_whole (primB : Option Nat) (files : List FileUnit) :
    ∀ e ∈ typeCheckFiles primB files, e.isTypeCheckWhole = true := by
  induction files with
  | nil => intro e h; simp [typeCheckFiles] at h
  | cons f rest ih =>
    intro e h
    cases f with
    | serializedASTFile => exact ih e (by simpa [typeCheckFiles] using h)
    | sourceFile sf =>
      simp only [typeCheckFiles, List.mem_append] at h
      rcases h with h | h
      · rcases List.mem_ite_nil_right.mp h with ⟨-, h⟩
        simp only [List.mem_singleton] at h
        subst h
        rfl
      · exact ih e h

/-- `performParse` on a non-REPL session that passes its assertions returns
exactly the result of the parse phases. -/
theorem performParse_eq_runParsePhases (st : CompilerState) (po : ParserOracle)
    (res : ParseResult)
    (hrun : CompilerInstance.performParse st po = some res)
    (hkind : st.invocation.inputKind ≠ .REPL) :
    res = runParsePhases st po := by
  simp only [CompilerInstance.performParse] at hrun
  split at hrun
  · simp at hrun
  · split at hrun
    · simp at hrun
    · split at hrun
      · rename_i hr
        rw [beq_iff_eq] at hr
        exact absurd hr hkind
      · split at hrun
        · simp at hrun
        · simpa using hrun.symm

/-! ### Phase-level lemmas -/

theorem normalizedChunks_length_pos (po : ParserOracle) :
    1 ≤ (normalizedChunks po).length := by
  rw [normalizedChunks]
  split
  · simp
  · rename_i h
    cases hc : po.mainChunks with
    | nil => rw [hc] at h; simp at h
    | cons c cs => simp

theorem pumpPhase_events_shape (st : CompilerState) (po : ParserOracle)
    (s : LibLoopState) (e : Event) (he : e ∈ (pumpPhase st po s).2) :
    e ∈ s.events ∨ e.isPumpMainFile = true
      ∨ ((!st.invocation.parseOnly
          && (st.primaryBufferID.isNone
              || st.mainBufferID == st.primaryBufferID)) = true
         ∧ e.isTypeCheckChunk = true) := by
  rcases hm : st.mainBufferID with _ | mb
  · simp only [pumpPhase, hm] at he
    exact Or.inl he
  · simp only [pumpPhase, hm] at he
    rcases pumpMainLoop_events_shape _ _ _ _ _ _ e he with h | h | h
    · exact Or.inl h
    · subst h
      exact Or.inr (Or.inl rfl)
    · exact Or.inr (Or.inr ⟨h.1, h.2⟩)

theorem pumpPhase_chunk_count (st : CompilerState) (po : ParserOracle)
    (s : LibLoopState) :
    (pumpPhase st po s).2.countP (fun e => e.isTypeCheckChunk)
      = s.events.countP (fun e => e.isTypeCheckChunk)
        + (if st.mainBufferID.isSome
              && (!st.invocation.parseOnly
                  && (st.primaryBufferID.isNone
                      || st.mainBufferID == st.primaryBufferID))
           then (normalizedChunks po).length else 0) := by
  rcases hm : st.mainBufferID with _ | mb
  · simp [pumpPhase, hm]
  · simp only [pumpPhase, hm]
    rw [pumpMainLoop_chunk_count]
    simp only [Option.isSome_some, Bool.true_and]

theorem pumpPhase_pump_count (st : CompilerState) (po : ParserOracle)
    (s : LibLoopState) :
    (pumpPhase st po s).2.countP (fun e => e.isPumpMainFile)
      = s.events.countP (fun e => e.isPumpMainFile)
        + (if st.mainBufferID.isSome then (normalizedChunks po).length else 0) := by
  rcases hm : st.mainBufferID with _ | mb
  · simp [pumpPhase, hm]
  · simp only [pumpPhase, hm]
    rw [pumpMainLoop_pump_count]
    simp

theorem libPhase_countP_zero (st : CompilerState) (po : ParserOracle)
    (p : Event → Bool) (hp : ∀ e, e.isLibraryLoopEvent = true → p e = false) :
    (libPhase st po).events.countP p = 0 := by
  rw [List.countP_eq_zero]
  intro e he
  rcases parseLibraryBuffers_events_shape _ _ _ _ _ _ e he with h | h
  · simp at h
  · simp [hp e h]

theorem typeCheckFiles_countP_zero (primB : Option Nat) (files : List FileUnit)
    (p : Event → Bool) (hp : ∀ e, e.isTypeCheckWhole = true → p e = false) :
    (typeCheckFiles primB files).countP p = 0 := by
  rw [List.countP_eq_zero]
  intro e he
  simp [hp e (typeCheckFiles_all_whole primB files e he)]

theorem performParse_repl (st : CompilerState) (po : ParserOracle)
    (res : ParseResult)
    (hrun : CompilerInstance.performParse st po = some res)
    (hkind : st.invocation.inputKind = .REPL) :
    res.events = [] ∧ res.hadLoadError = false := by
  simp only [CompilerInstance.performParse] at hrun
  split at hrun
  · simp at hrun
  · split at hrun
    · simp at hrun
    · split at hrun
      · obtain rfl := Option.some.inj hrun
        exact ⟨rfl, rfl⟩
      · rename_i hr
        rw [beq_iff_eq] at hr
        exact absurd hkind hr

theorem runParsePhases_err (st : CompilerState) (po : ParserOracle)
    (herr : (libPhase st po).hadLoadError = true) :
    (runParsePhases st po).events = (libPhase st po).events
    ∧ (runParsePhases st po).hadLoadError = true := by
  simp only [runParsePhases]
  rw [if_pos herr]
  exact ⟨rfl, rfl⟩

theorem runParsePhases_counts_ok (st : CompilerState) (po : ParserOracle)
    (herr : (libPhase st po).hadLoadError = false) (p : Event → Bool)
    (hwhole : ∀ e : Event, e.isTypeCheckWhole = true → p e = false)
    (hdel : p .delayedParsingPass = false) :
    (runParsePhases st po).events.countP p
      = (pumpPhase st po (libPhase st po)).2.countP p := by
  simp only [runParsePhases]
  rw [if_neg (by simp [herr])]
  split <;> split <;>
    simp [List.countP_append, List.countP_cons, hdel,
      typeCheckFiles_countP_zero _ _ p hwhole]

/-! ### Theorems for the claims -/

/-- **C1** During `performParse`, when a registered non-main buffer's content
is a recognized serialized-module image and merging it fails, the
session-wide failure flag is set, the loop still attempts every non-main
buffer, the main file is never pumped, and no chunk or whole-file
type-checking occurs. -/
theorem performParse_serializedLoadFailure (st : CompilerState) (po : ParserOracle)
    (res : ParseResult)
    (hkind : st.invocation.inputKind ≠ .REPL)
    (hrun : CompilerInstance.performParse st po = some res)
    (b : Nat) (hb : b ∈ st.bufferIDs) (hbm : some b ≠ st.mainBufferID)
    (hser : po.isSerializedAST (st.sourceMgr.getMemoryBuffer b).contents = true)
    (hfail : po.loadASTSucceeds (st.sourceMgr.getMemoryBuffer b).contents = false) :
    res.hadLoadError = true
    ∧ (∀ c ∈ st.bufferIDs, some c ≠ st.mainBufferID →
        ∃ e ∈ res.events, e.attemptsBuffer c = true)
    ∧ (∀ e ∈ res.events, e.isPumpMainFile = false ∧ e.isTypeCheckChunk = false
        ∧ e.isTypeCheckWhole = false) := by
  obtain rfl : res = runParsePhases st po :=
    performParse_eq_runParsePhases st po res hrun hkind
  have herr : (libPhase st po).hadLoadError = true :=
    parseLibraryBuffers_fail _ _ _ _ _ _ b hb hbm hser hfail
  simp only [runParsePhases]
  rw [if_pos herr]
  refine ⟨rfl, ?_, ?_⟩
  · intro c hc hcm
    exact parseLibraryBuffers_attempts _ _ _ _ _ _ c hc hcm
  · intro e he
    rcases parseLibraryBuffers_events_shape _ _ _ _ _ _ e he with h | h
    · simp at h
    · cases e <;> simp_all [Event.isLibraryLoopEvent, Event.isPumpMainFile,
        Event.isTypeCheckChunk, Event.isTypeCheckWhole]

/-- **C9** With parse-only active, `performParse` emits no chunk and no
whole-file type-checking event. -/
theorem performParse_parseOnly_noTypeChecking (st : CompilerState)
    (po : ParserOracle) (res : ParseResult)
    (hpo : st.invocation.parseOnly = true)
    (hrun : CompilerInstance.performParse st po = some res) :
    ∀ e ∈ res.events, e.isTypeCheckChunk = false ∧ e.isTypeCheckWhole = false := by
  have hlib : ∀ e, e ∈ (libPhase st po).events →
      e.isTypeCheckChunk = false ∧ e.isTypeCheckWhole = false := by
    intro e he
    rcases parseLibraryBuffers_events_shape _ _ _ _ _ _ e he with h | h
    · simp at h
    · cases e <;> simp_all [Event.isLibraryLoopEvent, Event.isTypeCheckChunk,
        Event.isTypeCheckWhole]
  by_cases hkind : st.invocation.inputKind = .REPL
  · simp only [CompilerInstance.performParse] at hrun
    split at hrun
    · simp at hrun
    · split at hrun
      · simp at hrun
      · split at hrun
        · obtain rfl : _ = res := Option.some.inj hrun
          intro e he
          simp at he
        · rename_i hr
          rw [beq_iff_eq] at hr
          exact absurd hkind hr
  · obtain rfl : res = runParsePhases st po :=
      performParse_eq_runParsePhases st po res hrun hkind
    simp only [runParsePhases]
    by_cases herr : (libPhase st po).hadLoadError = true
    · rw [if_pos herr]
      exact hlib
    · rw [if_neg herr]
      intro e he
      simp only [hpo, Bool.not_true, Bool.false_eq_true, if_false] at he
      have he2 : e ∈ (pumpPhase st po (libPhase st po)).2
          ∨ e = Event.delayedParsingPass := by
        by_cases hd : (delayedCallbacks st.invocation).isSome = true
        · rw [if_pos hd] at he
          rcases List.mem_append.mp he with h | h
          · exact Or.inl h
          · simp only [List.mem_singleton] at h
            exact Or.inr h
        · rw [if_neg hd] at he
          exact Or.inl he
      rcases he2 with h2 | h2
      · rcases pumpPhase_events_shape st po _ e h2 with h | h | h
        · exact hlib e h
        · cases e <;> simp_all [Event.isPumpMainFile, Event.isTypeCheckChunk,
            Event.isTypeCheckWhole]
        · rw [hpo] at h
          simp at h
      · subst h2
        exact ⟨rfl, rfl⟩

/-- **C2 (counterexample)** With parse-only active and a primary buffer
designated that is not the main buffer, the guard as the claim words it says
the chunk type-check happens, yet the code performs no chunk type-check after
either of the two pumps. -/
theorem performParse_chunkCheck_spec_refuted :
    (CompilerInstance.setup invParseOnlyPrimary hostOK fsMainTwoFiles).toOption
        = some stParseOnlyPrimary
    ∧ CompilerInstance.performParse stParseOnlyPrimary poTwoChunks
        = some resParseOnlyPrimary
    ∧ specChunkCheckGuard stParseOnlyPrimary.invocation.parseOnly
        stParseOnlyPrimary.primaryBufferID stParseOnlyPrimary.mainBufferID = true
    ∧ resParseOnlyPrimary.events.countP (fun e => e.isPumpMainFile) = 2
    ∧ resParseOnlyPrimary.events.countP (fun e => e.isTypeCheckChunk) = 0 := by
  decide

/-- **C2 (amended)** After each pump of the main file, the appended chunk is
type-checked exactly when `!parseOnly && (no primary designated || main is
the primary)` — the code's guard, not the claim's: the number of chunk
type-check events equals the number of pumps when that guard holds and is
zero otherwise; and on a non-REPL session with a main buffer and no load
failure there is at least one pump. -/
theorem performParse_chunkCheck_guard (st : CompilerState) (po : ParserOracle)
    (res : ParseResult)
    (hrun : CompilerInstance.performParse st po = some res) :
    res.events.countP (fun e => e.isTypeCheckChunk)
      = (if !st.invocation.parseOnly
            && (st.primaryBufferID.isNone || st.mainBufferID == st.primaryBufferID)
         then res.events.countP (fun e => e.isPumpMainFile) else 0)
    ∧ (st.invocation.inputKind ≠ .REPL → st.mainBufferID.isSome = true →
        res.hadLoadError = false →
        1 ≤ res.events.countP (fun e => e.isPumpMainFile)) := by
  have hchunkwhole : ∀ e : Event, e.isTypeCheckWhole = true →
      (fun e : Event => e.isTypeCheckChunk) e = false := by
    intro e h
    cases e <;> simp_all [Event.isTypeCheckWhole, Event.isTypeCheckChunk]
  have hpumpwhole : ∀ e : Event, e.isTypeCheckWhole = true →
      (fun e : Event => e.isPumpMainFile) e = false := by
    intro e h
    cases e <;> simp_all [Event.isTypeCheckWhole, Event.isPumpMainFile]
  have hlibchunk : ∀ e : Event, e.isLibraryLoopEvent = true →
      (fun e : Event => e.isTypeCheckChunk) e = false := by
    intro e h
    cases e <;> simp_all [Event.isLibraryLoopEvent, Event.isTypeCheckChunk]
  have hlibpump : ∀ e : Event, e.isLibraryLoopEvent = true →
      (fun e : Event => e.isPumpMainFile) e = false := by
    intro e h
    cases e <;> simp_all [Event.isLibraryLoopEvent, Event.isPumpMainFile]
  by_cases hkind : st.invocation.inputKind = .REPL
  · obtain ⟨hev, -⟩ := performParse_repl st po res hrun hkind
    rw [hev]
    constructor
    · simp
    · intro hk
      exact absurd hkind hk
  · obtain rfl : res = runParsePhases st po :=
      performParse_eq_runParsePhases st po res hrun hkind
    by_cases herr : (libPhase st po).hadLoadError = true
    · obtain ⟨hev, hfl⟩ := runParsePhases_err st po herr
      rw [hev]
      constructor
      · rw [libPhase_countP_zero st po _ hlibchunk,
          libPhase_countP_zero st po _ hlibpump]
        split <;> rfl
      · intro _ _ hle
        rw [hfl] at hle
        cases hle
    · have herr' : (libPhase st po).hadLoadError = false := by
        simpa using herr
      have hcchunk := runParsePhases_counts_ok st po herr'
        (fun e => e.isTypeCheckChunk) hchunkwhole rfl
      have hcpump := runParsePhases_counts_ok st po herr'
        (fun e => e.isPumpMainFile) hpumpwhole rfl
      rw [hcchunk, hcpump, pumpPhase_chunk_count, pumpPhase_pump_count,
        libPhase_countP_zero st po _ hlibchunk,
        libPhase_countP_zero st po _ hlibpump]
      simp only [Nat.zero_add]
      constructor
      · cases hM : st.mainBufferID.isSome <;>
          cases hG : (!st.invocation.parseOnly
            && (st.primaryBufferID.isNone
                || st.mainBufferID == st.primaryBufferID)) <;>
          simp [hM, hG]
      · intro _ hM _
        rw [if_pos hM]
        exact normalizedChunks_length_pos po

/-- **C3 (code evaluated at the failing input)** On a session with main file
`main.swift` (buffer 0) and library `util.src` (buffer 1), no primary buffer
and parse-only off, the main file is chunk-type-checked during the pump loop
**and** then whole-file type-checked again by the final loop — the final loop
does not restrict itself to files that were not incrementally checked, even
though the code's own comment says "besides the main source file". -/
theorem performParse_wholeFileCheck_includes_mainFile :
    (CompilerInstance.setup invMainTwoFiles hostOK fsMainTwoFiles).toOption
        = some stMainTwoFiles
    ∧ CompilerInstance.performParse stMainTwoFiles poTwoChunks = some resMainTwoFiles
    ∧ stMainTwoFiles.mainBufferID = some 0
    ∧ stMainTwoFiles.primaryBufferID = none
    ∧ stMainTwoFiles.invocation.parseOnly = false
    ∧ Event.typeCheckChunk 0 0 ∈ resMainTwoFiles.events
    ∧ Event.typeCheckWholeFile (some 0) ∈ resMainTwoFiles.events := by
  decide

/-- **C4 (counterexample)** With input kind Main, a code-completion target,
and exactly one buffer across memory and file inputs combined (one file
input, not named `main.swift`), the fallback does not fire: the
code-completion buffer also counts toward `BufferIDs.size() == 1`, so the
single file input does not become the main buffer. -/
theorem setup_implicitMain_spec_refuted :
    (CompilerInstance.setup invCCPlusFile hostOK [("a.src", "aa")]).toOption
        = some stCCPlusFile
    ∧ invCCPlusFile.inputKind = .Main
    ∧ invCCPlusFile.inputBuffers.length + invCCPlusFile.inputFilenames.length = 1
    ∧ (∀ f ∈ invCCPlusFile.inputFilenames, pathFilename f ≠ "main.swift")
    ∧ stCCPlusFile.bufferIDs.length = 2
    ∧ stCCPlusFile.mainBufferID = none := by
  decide

/-- **C4 (amended)** At the end of `setup`, if the input kind is Main, no
file input is named `main.swift` (so registration chose no main buffer), and
exactly one buffer was registered in total — counting memory inputs,
non-deduplicated file inputs, **and any code-completion buffer** — then that
buffer becomes the main buffer; with more buffers the fallback does not fire,
and with input kind Library the main buffer is never set at all. -/
theorem setup_implicitMainFallback (invok : CompilerInvocation) (host : Host)
    (fs : FileSystem) (st : CompilerState)
    (hok : CompilerInstance.setup invok host fs = .ok st) :
    (invok.inputKind = .Main →
      (∀ f ∈ invok.inputFilenames, pathFilename f ≠ "main.swift") →
      st.mainBufferID
        = (if st.bufferIDs.length = 1 then st.bufferIDs.head? else none))
    ∧ (invok.inputKind = .Library → st.mainBufferID = none) := by
  obtain ⟨tc, st2, htc, haf, hst⟩ := setup_ok_elim invok host fs st hok
  constructor
  · intro hMain hNoMain
    have hsil : (invok.inputKind == SourceFileKind.SIL) = false := by
      simp [hMain]
    have hno : ∀ f ∈ invok.inputFilenames,
        ((invok.inputKind == SourceFileKind.SIL)
          || ((invok.inputKind == SourceFileKind.Main)
              && (pathFilename f == "main.swift"))) = false := by
      intro f hf
      simp [hMain, beq_eq_false_iff_ne, hNoMain f hf]
    have hmain2 : st2.mainBufferID = none := by
      rw [addFileBuffers_main_preserved _ _ _ _ _ _ _ _ haf hno,
        addMemoryBuffers_main_of_false _ _ _ hsil,
        (registerCodeCompletion_fields _ _).2.1,
        (addLoaders_fields _ _ _).2.2.2.1]
      rfl
    subst hst
    by_cases hlen : st2.bufferIDs.length = 1
    · rw [if_pos (by simp [hMain, hmain2, hlen])]
      simp [hlen]
    · rw [if_neg (by simp [hlen])]
      simp [hlen, hmain2]
  · intro hLib
    have hsil : (invok.inputKind == SourceFileKind.SIL) = false := by
      simp [hLib]
    have hno : ∀ f ∈ invok.inputFilenames,
        ((invok.inputKind == SourceFileKind.SIL)
          || ((invok.inputKind == SourceFileKind.Main)
              && (pathFilename f == "main.swift"))) = false := by
      intro f hf
      simp [hLib]
    have hmain2 : st2.mainBufferID = none := by
      rw [addFileBuffers_main_preserved _ _ _ _ _ _ _ _ haf hno,
        addMemoryBuffers_main_of_false _ _ _ hsil,
        (registerCodeCompletion_fields _ _).2.1,
        (addLoaders_fields _ _ _).2.2.2.1]
      rfl
    subst hst
    rw [if_neg (by simp [hLib])]
    exact hmain2

/-- **C5** File-input dedup: with a memory input `(p, c)` and file inputs
`[p, q, q]`, any successful setup registers exactly two buffers — the memory
buffer wins for identifier `p` (its contents are `c`, and the file system
need not even contain `p`), and the two `q` entries share one buffer id —
and the primary selector pointing at the duplicate third input resolves to
the existing buffer id 1. -/
theorem setup_fileInput_dedup (p q c d : String) (host : Host) (fs : FileSystem)
    (hpq : p ≠ q) (hq : fs.readFile q = some d) (st : CompilerState)
    (hok : CompilerInstance.setup (invFileDedup p q c) host fs = .ok st) :
    st.sourceMgr.buffers = [⟨p, c⟩, ⟨q, d⟩] ∧ st.bufferIDs = [0, 1]
    ∧ st.primaryBufferID = some 1 ∧ st.mainBufferID = none := by
  have hpq' : (p == q) = false := by
    simp [hpq]
  obtain ⟨tc, st2, htc, haf, hst⟩ := setup_ok_elim _ host fs st hok
  have hkindsil : ((invFileDedup p q c).inputKind == SourceFileKind.SIL) = false := rfl
  have hkindmain : ((invFileDedup p q c).inputKind == SourceFileKind.Main) = false := rfl
  rw [hkindsil, hkindmain,
    registerCodeCompletion_none _ _ (rfl :
      (invFileDedup p q c).codeCompletionPoint = none)] at haf
  have hbufs : (invFileDedup p q c).inputBuffers = [⟨p, c⟩] := rfl
  have hfiles : (invFileDedup p q c).inputFilenames = [p, q, q] := rfl
  have hpi : (invFileDedup p q c).primaryInput
      = some ⟨2, SelectedInputKind.filename⟩ := rfl
  rw [hbufs, hfiles, hpi] at haf
  have hbase : ∀ x : CompilerState, x.sourceMgr = ⟨[]⟩ → x.bufferIDs = []
      → x.mainBufferID = none → x.primaryBufferID = none →
      addFileBuffers false false (some ⟨2, SelectedInputKind.filename⟩) fs 0 [p, q, q]
        (addMemoryBuffers false (some ⟨2, SelectedInputKind.filename⟩) 0 [⟨p, c⟩] x)
      = .ok { x with sourceMgr := ⟨[⟨p, c⟩, ⟨q, d⟩]⟩, bufferIDs := [0, 1],
                     primaryBufferID := some 1 } := by
    intro x h1 h2 h3 h4
    simp only [addMemoryBuffers, addFileBuffers, SourceManager.addMemBufferCopy,
      SourceManager.addNewSourceBuffer, SourceManager.getIDForBufferIdentifier,
      findBufferIdx, primaryMatchesBuffer, primaryMatchesFilename, h1, h2, h3, h4,
      beq_self_eq_true, hpq', hq]
    simp
  rw [hbase _ ((addLoaders_fields _ _ _).2.1) ((addLoaders_fields _ _ _).2.2.1)
    ((addLoaders_fields _ _ _).2.2.2.1) ((addLoaders_fields _ _ _).2.2.2.2.1)] at haf
  obtain rfl := Except.ok.inj haf
  subst hst
  rw [if_neg (by simp [hkindmain])]
  refine ⟨rfl, rfl, rfl, ?_⟩
  show (addLoaders (invFileDedup p q c) host
      (initialState (invFileDedup p q c) tc)).mainBufferID = none
  rw [(addLoaders_fields _ _ _).2.2.2.1]
  rfl

/-- **C6 (counterexample)** In Main mode the memory-input loop records no
main buffer at all: with two memory inputs registered (ids 0 and 1) the
session ends setup with `MainBufferID` unset — only SIL mode assigns the
main buffer during memory registration. -/
theorem setup_memoryMain_spec_refuted :
    (CompilerInstance.setup invTwoMemMain hostOK []).toOption = some stTwoMemMain
    ∧ invTwoMemMain.inputKind = .Main
    ∧ invTwoMemMain.inputBuffers.length = 2
    ∧ stTwoMemMain.bufferIDs = [0, 1]
    ∧ stTwoMemMain.mainBufferID = none := by
  decide

/-- **C6 (amended)** In SIL mode (no code-completion buffer, no file
inputs), setup registers the memory inputs in input order with consecutive
ids, records the **last** memory input as the main buffer (each iteration
overwrites the previous one; in Main mode the loop records none — see the
counterexample), and records as primary the memory input whose original
input index matches a buffer-kind primary selector. -/
theorem setup_memoryInputs_registration (invok : CompilerInvocation) (host : Host)
    (fs : FileSystem) (st : CompilerState)
    (hkind : invok.inputKind = .SIL)
    (hcc : invok.codeCompletionPoint = none)
    (hfiles : invok.inputFilenames = [])
    (hok : CompilerInstance.setup invok host fs = .ok st) :
    st.sourceMgr.buffers = invok.inputBuffers
    ∧ st.bufferIDs = idRange 0 invok.inputBuffers.length
    ∧ st.mainBufferID = (if invok.inputBuffers.isEmpty then none
        else some (invok.inputBuffers.length - 1))
    ∧ st.primaryBufferID
        = memPrimaryUpdate invok.primaryInput 0 invok.inputBuffers.length 0 none := by
  obtain ⟨tc, st2, htc, haf, hst⟩ := setup_ok_elim invok host fs st hok
  have hsil : (invok.inputKind == SourceFileKind.SIL) = true := by
    simp [hkind]
  have hmm : (invok.inputKind == SourceFileKind.Main) = false := by
    simp [hkind]
  rw [hfiles, hsil, hmm, registerCodeCompletion_none _ _ hcc] at haf
  simp only [addFileBuffers, Except.ok.injEq] at haf
  subst haf
  rw [if_neg (by simp [hmm])] at hst
  subst hst
  refine ⟨?_, ?_, ?_, ?_⟩
  · rw [addMemoryBuffers_buffers, (addLoaders_fields _ _ _).2.1]
    simp [initialState]
  · rw [addMemoryBuffers_bufferIDs, (addLoaders_fields _ _ _).2.2.1,
      (addLoaders_fields _ _ _).2.1]
    simp [initialState]
  · rw [addMemoryBuffers_main_sil, (addLoaders_fields _ _ _).2.2.2.1,
      (addLoaders_fields _ _ _).2.1]
    simp [initialState]
  · rw [addMemoryBuffers_primary, (addLoaders_fields _ _ _).2.2.2.2.1,
      (addLoaders_fields _ _ _).2.1]
    simp [initialState]

/-- **C7 (code evaluated at the failing input)** A triple with a recognized
os (MacOSX) but an architecture outside the recognized table does **not**
abort: the misplaced `break` in the switch's default case makes the
`llvm_unreachable` dead code, so `setTargetConfigurations` returns with the
"arch" flag unset and `setup` succeeds — no fatal `ConfigurationError`. -/
theorem setTargetConfigurations_unknownArch_continues :
    setTargetConfigurations ⟨.macosx, .otherArch⟩
        = some { os := some "OSX", arch := none }
    ∧ (CompilerInstance.setup invUnknownArch hostOK []).toOption.map
        (fun st => st.targetConfig) = some { os := some "OSX", arch := none } := by
  decide

/-- **C8** The serialized-binary loader is always in a successful setup's
loader chain; if the foreign-interop bridge is unavailable while an SDK path
is configured, setup fails immediately with the bridge-unavailable error;
and if the bridge is available but its construction fails, setup fails with
the bridge-creation error. -/
theorem setup_loaderChain_bridge (invok : CompilerInvocation) (host : Host)
    (fs : FileSystem) :
    (∀ st : CompilerState, CompilerInstance.setup invok host fs = .ok st →
       ModuleLoader.serializedModuleLoader ∈ st.loaders)
    ∧ ((setTargetConfigurations invok.targetTriple).isSome = true →
       host.clangImporterCtorAvailable = false → invok.sdkPath ≠ "" →
       CompilerInstance.setup invok host fs = .error .clangImporterNotLinkedIn)
    ∧ ((setTargetConfigurations invok.targetTriple).isSome = true →
       host.clangImporterCtorAvailable = true →
       host.clangImporterCreateSucceeds = false →
       CompilerInstance.setup invok host fs = .error .clangImporterCreateFail) := by
  refine ⟨?_, ?_, ?_⟩
  · intro st hok
    obtain ⟨tc, st2, htc, haf, hst⟩ := setup_ok_elim invok host fs st hok
    have h2 : st2.loaders = (addLoaders invok host (initialState invok tc)).loaders := by
      rw [(addFileBuffers_frame _ _ _ _ _ _ _ _ haf).2.1,
        (addMemoryBuffers_frame _ _ _ _ _).2.1,
        (registerCodeCompletion_fields _ _).2.2.2.1]
    have hmem := addLoaders_serialized_mem invok host (initialState invok tc)
    subst hst
    split
    · show ModuleLoader.serializedModuleLoader ∈ st2.loaders
      rw [h2]
      exact hmem
    · show ModuleLoader.serializedModuleLoader ∈ st2.loaders
      rw [h2]
      exact hmem
  · intro h1 h2 h3
    obtain ⟨tc, htc⟩ := Option.isSome_iff_exists.mp h1
    simp [CompilerInstance.setup, htc, h2, h3]
  · intro h1 h2 h3
    obtain ⟨tc, htc⟩ := Option.isSome_iff_exists.mp h1
    simp [CompilerInstance.setup, htc, h2, h3]

theorem performParse_isSome_of_sil (st : CompilerState) (po : ParserOracle)
    (hkind : st.invocation.inputKind = .SIL)
    (hlen : st.bufferIDs.length = 1)
    (hmain : st.mainBufferID.isSome = true) :
    (CompilerInstance.performParse st po).isSome = true := by
  simp [CompilerInstance.performParse, hkind, hlen,
    Option.isNone_iff_eq_none, Option.isSome_iff_exists.mp hmain]
  rcases Option.isSome_iff_exists.mp hmain with ⟨mb, hmb⟩
  simp [hmb]

/-- **C10 (counterexample)** A SIL-mode setup with zero inputs succeeds, yet
the very first assertion of `performParse` (`BufferIDs.size() == 1`) fires on
the session it produced. -/
theorem performParse_sil_assert_spec_refuted :
    (CompilerInstance.setup invSILNoInputs hostOK []).toOption = some stSILNoInputs
    ∧ stSILNoInputs.bufferIDs = []
    ∧ CompilerInstance.performParse stSILNoInputs poTwoChunks = none := by
  decide

/-- **C10 (amended)** `performParse` in SIL mode asserts that exactly one
buffer was registered and a main buffer is designated; a successful SIL-mode
setup guarantees this only when it was given exactly one input (memory or
file, with no code-completion buffer) — then the buffer count is one, a main
buffer is designated, and `performParse` passes its assertions. -/
theorem setup_sil_singleInput_assertions (invok : CompilerInvocation)
    (host : Host) (fs : FileSystem) (st : CompilerState) (po : ParserOracle)
    (hkind : invok.inputKind = .SIL)
    (hcc : invok.codeCompletionPoint = none)
    (hone : invok.inputBuffers.length + invok.inputFilenames.length = 1)
    (hok : CompilerInstance.setup invok host fs = .ok st) :
    st.bufferIDs.length = 1 ∧ st.mainBufferID.isSome = true
    ∧ (CompilerInstance.performParse st po).isSome = true := by
  have hinv : st.invocation = invok := setup_invocation invok host fs st hok
  obtain ⟨tc, st2, htc, haf, hst⟩ := setup_ok_elim invok host fs st hok
  have hsil : (invok.inputKind == SourceFileKind.SIL) = true := by
    simp [hkind]
  have hmm : (invok.inputKind == SourceFileKind.Main) = false := by
    simp [hkind]
  rw [hsil, hmm, registerCodeCompletion_none _ _ hcc] at haf
  rw [if_neg (by simp [hmm])] at hst
  subst hst
  have hsm : (addLoaders invok host (initialState invok tc)).sourceMgr = ⟨[]⟩ := by
    rw [(addLoaders_fields _ _ _).2.1]
    rfl
  have hbid : (addLoaders invok host (initialState invok tc)).bufferIDs = [] := by
    rw [(addLoaders_fields _ _ _).2.2.1]
    rfl
  have hmainlen : st.bufferIDs.length = 1 ∧ st.mainBufferID.isSome = true := by
    rcases hb : invok.inputBuffers with _ | ⟨b, bs⟩
    · rcases hf : invok.inputFilenames with _ | ⟨f, rest⟩
      · rw [hb, hf] at hone
        simp at hone
      · have hrest : rest = [] := by
          rw [hb, hf] at hone
          simpa using hone
        subst hrest
        rw [hb, hf] at haf
        simp only [addMemoryBuffers] at haf
        cases hread : fs.readFile f with
        | none =>
          simp only [addFileBuffers, SourceManager.getIDForBufferIdentifier, hsm,
            findBufferIdx, hread] at haf
          simp at haf
        | some contents =>
          simp only [addFileBuffers, SourceManager.getIDForBufferIdentifier, hsm,
            findBufferIdx, hread, SourceManager.addNewSourceBuffer,
            Except.ok.injEq] at haf
          subst haf
          constructor
          · simp [apply_ite, ite_self, hbid]
          · simp [apply_ite, ite_self]
    · have hbs : bs = [] ∧ invok.inputFilenames = [] := by
        rw [hb] at hone
        constructor
        · cases bs with
          | nil => rfl
          | cons x xs =>
            exfalso
            simp only [List.length_cons] at hone
            omega
        · cases hfx : invok.inputFilenames with
          | nil => rfl
          | cons x xs =>
            rw [hfx] at hone
            exfalso
            simp only [List.length_cons] at hone
            omega
      rw [hbs.1] at hb
      rw [hb, hbs.2] at haf
      simp only [addFileBuffers, Except.ok.injEq] at haf
      subst haf
      constructor
      · rw [addMemoryBuffers_bufferIDs, hbid, hsm]
        rfl
      · rw [addMemoryBuffers_main_sil, hsm]
        rfl
  exact ⟨hmainlen.1, hmainlen.2,
    performParse_isSome_of_sil st po (by rw [hinv, hkind]) hmainlen.1 hmainlen.2⟩

/-! ### Witnesses: each theorem with hypotheses applied at a concrete input -/

theorem performParse_serializedLoadFailure_witness :
    resMainSerFail.hadLoadError = true :=
  (performParse_serializedLoadFailure stMainTwoFiles poSerializedFail resMainSerFail
    (by decide) (by decide) 1 (by decide) (by decide) (by decide) (by decide)).1

theorem performParse_chunkCheck_guard_witness :
    resMainTwoFiles.events.countP (fun e => e.isTypeCheckChunk)
      = (if !stMainTwoFiles.invocation.parseOnly
            && (stMainTwoFiles.primaryBufferID.isNone
                || stMainTwoFiles.mainBufferID == stMainTwoFiles.primaryBufferID)
         then resMainTwoFiles.events.countP (fun e => e.isPumpMainFile) else 0) :=
  (performParse_chunkCheck_guard stMainTwoFiles poTwoChunks resMainTwoFiles
    (by decide)).1

theorem setup_implicitMainFallback_witness :
    stSoloFile.mainBufferID
      = (if stSoloFile.bufferIDs.length = 1 then stSoloFile.bufferIDs.head?
         else none) :=
  (setup_implicitMainFallback invSoloFile hostOK [("solo.src", "s")] stSoloFile
    (by rfl)).1 rfl (by decide)

theorem setup_fileInput_dedup_witness :
    stFileDedup.sourceMgr.buffers = [⟨"a", "ca"⟩, ⟨"b", "d"⟩] :=
  (setup_fileInput_dedup "a" "b" "ca" "d" hostOK [("b", "d")] (by decide) (by decide)
    stFileDedup (by rfl)).1

theorem setup_memoryInputs_registration_witness :
    stTwoMemSIL.sourceMgr.buffers = invTwoMemSIL.inputBuffers
    ∧ stTwoMemSIL.mainBufferID
        = (if invTwoMemSIL.inputBuffers.isEmpty then none
           else some (invTwoMemSIL.inputBuffers.length - 1)) := by
  have h := setup_memoryInputs_registration invTwoMemSIL hostOK [] stTwoMemSIL
    rfl rfl rfl (by rfl)
  exact ⟨h.1, h.2.2.1⟩

theorem setup_loaderChain_bridge_witness :
    ModuleLoader.serializedModuleLoader ∈ stMainTwoFiles.loaders
    ∧ CompilerInstance.setup invSDKPath ⟨false, false⟩ []
        = .error .clangImporterNotLinkedIn
    ∧ CompilerInstance.setup invMainTwoFiles ⟨true, false⟩ fsMainTwoFiles
        = .error .clangImporterCreateFail := by
  refine ⟨?_, ?_, ?_⟩
  · exact (setup_loaderChain_bridge invMainTwoFiles hostOK fsMainTwoFiles).1
      stMainTwoFiles (by rfl)
  · exact (setup_loaderChain_bridge invSDKPath ⟨false, false⟩ []).2.1 (by rfl) rfl
      (by decide)
  · exact (setup_loaderChain_bridge invMainTwoFiles ⟨true, false⟩ fsMainTwoFiles).2.2
      (by rfl) rfl rfl

theorem performParse_parseOnly_noTypeChecking_witness :
    (Event.pumpMainFile 0).isTypeCheckChunk = false
    ∧ (Event.pumpMainFile 0).isTypeCheckWhole = false :=
  performParse_parseOnly_noTypeChecking stParseOnlyPrimary poTwoChunks
    resParseOnlyPrimary (by decide) (by decide) (Event.pumpMainFile 0) (by decide)

theorem setup_sil_singleInput_assertions_witness :
    stSILOneInput.bufferIDs.length = 1
    ∧ stSILOneInput.mainBufferID.isSome = true
    ∧ (CompilerInstance.performParse stSILOneInput poTwoChunks).isSome = true :=
  setup_sil_singleInput_assertions invSILOneInput hostOK [] stSILOneInput poTwoChunks
    rfl rfl (by decide) (by rfl)

end SwiftFrontend
